import Mathlib

/-!
Verification of `src/apteryx_transformers/models/autoencoders.py`.

The file shallowly embeds the layer-trainability selection performed by
`AbstractTransformerAutoencoder.__init__` together with its helper
`toggle_layer_grad`, the dataset-split arithmetic of `get_trainer`, the
training-argument merging of `get_trainer`, and the positional argument
forwarding of `T5Autoencoder.__init__`.

A parameter is modelled by its `requires_grad` flag (a `Bool`), a layer by
the list of flags of its parameters, and the model by its encoder layer
sequence (`model.encoder.block`), its decoder layer sequence
(`model.decoder.block`) and the remaining parameters (shared embedding,
`lm_head`, ...).  Python exceptions are modelled by an error value returned
next to the (partially mutated) state, since a raised exception leaves the
in-place mutations performed so far visible to the caller.
-/

/-- A Python exception raised during setup. -/
inductive PyErr where
  /-- A failed `assert` statement. -/
  | assertionError : PyErr
  /-- An attribute lookup on an object that lacks the attribute. -/
  | attributeError : PyErr
deriving DecidableEq, Repr

/-- The model state seen by the selector: each parameter is its
`requires_grad` flag, each layer the list of its parameters' flags. -/
structure TModel where
  /-- `self.model.encoder.block` -/
  encoderBlock : List (List Bool)
  /-- `self.model.decoder.block` -/
  decoderBlock : List (List Bool)
  /-- the remaining entries of `self.model.parameters()` (shared embedding,
  `lm_head`, layer norms outside the attention blocks, ...) -/
  otherParams : List Bool
deriving DecidableEq, Repr

/-- The attribute chain `self.model.base_model.encoder.layer` read by the
unfreeze loop of `toggle_layer_grad` (line 90 of `autoencoders.py`).  For
the models this class constructs (`get_model_class` returns
`T5ForConditionalGeneration`), `base_model` resolves to the model itself
(`base_model_prefix` is `"transformer"`, an attribute the model lacks, so
`getattr` falls back to `self`); `self.encoder` is a `T5Stack`, and a
`T5Stack` stores its layer sequence under the attribute `block`, not
`layer`.  The lookup therefore raises `AttributeError`, before the slice
`[-self.n_layers_to_train:]` is ever evaluated. -/
def base_model_encoder_layer (_m : TModel) : Except PyErr (List (List Bool)) :=
  Except.error PyErr.attributeError

/-- `AbstractTransformerAutoencoder.toggle_layer_grad` (lines 77-94).
`module` is the layer sequence passed in (an alias of `encoderBlock` or
`decoderBlock`); the returned list is its state after the call, next to the
exception the call raised, if any.  With `n_to_train = -1` the count is
replaced by `len(module)`.  When the resulting count is positive the layers
of `module[:-n_to_train]` have every parameter frozen, and then the
unfreeze loop evaluates `self.model.base_model.encoder.layer`, which
raises `AttributeError` (see `base_model_encoder_layer`), so no flag is
ever set to `True`.  Otherwise the call does nothing. -/
def toggle_layer_grad (m : TModel) (module : List (List Bool)) (n_to_train : Int) :
    List (List Bool) × Option PyErr :=
  let n_layers := module.length
  let n : Int := if n_to_train = -1 then (n_layers : Int) else n_to_train
  if 0 < n then
    let keep : Nat := n_layers - n.toNat
    let frozen := (module.take keep).map (fun lay => lay.map fun _ => false)
      ++ module.drop keep
    match base_model_encoder_layer m with
    | Except.error e => (frozen, some e)
    | Except.ok _ => (frozen, none)
  else
    (module, none)

/-- The `n_layers_to_train` argument: `Union[tuple, int]`, default `0`. -/
inductive NLayersSpec where
  /-- a pair `(n_enc_to_train, n_dec_to_train)` -/
  | tup (e d : Int) : NLayersSpec
  /-- a single integer (the absent default is `int 0`) -/
  | int (n : Int) : NLayersSpec
deriving DecidableEq, Repr

/-- The layer-trainability selection of
`AbstractTransformerAutoencoder.__init__` (lines 45-69): the branch on
`n_layers_to_train`, the `assert` validations, the two `toggle_layer_grad`
calls (encoder first, at line 54/62, then decoder), and the freeze-all
`else` branch over `self.model.parameters()`.  Returns the model state
after the call together with the exception it raised, if any; a raised
exception stops execution but keeps the mutations already performed. -/
def init_layer_selection (m : TModel) (n_layers_to_train : NLayersSpec) :
    TModel × Option PyErr :=
  let n_enc_layers := m.encoderBlock.length
  let n_dec_layers := m.decoderBlock.length
  let total_attn_layers := n_enc_layers + n_dec_layers
  match n_layers_to_train with
  | NLayersSpec.tup n_enc_to_train n_dec_to_train =>
    if n_enc_to_train ≤ (n_enc_layers : Int) then
      if n_dec_to_train ≤ (n_dec_layers : Int) then
        match toggle_layer_grad m m.encoderBlock n_enc_to_train with
        | (enc', some e) => ({ m with encoderBlock := enc' }, some e)
        | (enc', none) =>
          let m1 : TModel := { m with encoderBlock := enc' }
          match toggle_layer_grad m1 m1.decoderBlock n_dec_to_train with
          | (dec', err) => ({ m1 with decoderBlock := dec' }, err)
      else (m, some PyErr.assertionError)
    else (m, some PyErr.assertionError)
  | NLayersSpec.int n =>
    if 0 < n then
      if n ≤ (total_attn_layers : Int) then
        let n_dec_to_train : Int := if n < (n_dec_layers : Int) then n else (n_dec_layers : Int)
        let n_enc_to_train : Int := max (n - (n_dec_layers : Int)) 0
        match toggle_layer_grad m m.encoderBlock n_enc_to_train with
        | (enc', some e) => ({ m with encoderBlock := enc' }, some e)
        | (enc', none) =>
          let m1 : TModel := { m with encoderBlock := enc' }
          match toggle_layer_grad m1 m1.decoderBlock n_dec_to_train with
          | (dec', err) => ({ m1 with decoderBlock := dec' }, err)
      else (m, some PyErr.assertionError)
    else
      ({ encoderBlock := m.encoderBlock.map (fun lay => lay.map fun _ => false),
         decoderBlock := m.decoderBlock.map (fun lay => lay.map fun _ => false),
         otherParams := m.otherParams.map fun _ => false }, none)

/-- Every `requires_grad` flag of every parameter of the model is `false`. -/
def TModel.allFrozen (m : TModel) : Bool :=
  m.encoderBlock.all (fun lay => lay.all fun p => !p) &&
  m.decoderBlock.all (fun lay => lay.all fun p => !p) &&
  m.otherParams.all (fun p => !p)

/-- `toggle_layer_grad` is a silent no-op when the requested count is `0`
or a negative value other than the sentinel `-1`: neither branch of the
body runs, so the module and all flags are returned unchanged and no
exception is raised. -/
theorem toggle_layer_grad_noop (m : TModel) (module : List (List Bool)) (n : Int)
    (h : n = 0 ∨ (n < 0 ∧ n ≠ -1)) :
    toggle_layer_grad m module n = (module, none) := by
  have hne : n ≠ -1 := by
    rcases h with h | h
    · omega
    · exact h.2
  have hpos : ¬ (0 : Int) < n := by
    rcases h with h | h <;> omega
  simp only [toggle_layer_grad, if_neg hne, if_neg hpos]

/-- Claim C1 (code bug): for `E = 1`, `D = 2` and pair spec `(1, 1)` the
claim demands that decoder layer 0 end up frozen and setup complete; the
code instead raises `AttributeError` from the unfreeze loop of
`toggle_layer_grad` (it reads the nonexistent
`self.model.base_model.encoder.layer`), so decoder layer 0 keeps its
initial trainable flag and `__init__` aborts. -/
theorem C1_pair_selection_crashes :
    init_layer_selection ⟨[[true]], [[true], [true]], []⟩ (NLayersSpec.tup 1 1) =
      (⟨[[true]], [[true], [true]], []⟩, some PyErr.attributeError) := by
  decide

/-- Claim C2 (code bug): at the spec's own example `E = 2`, `D = 3`,
spec `4`, the code computes `n_dec_to_train = 3` and `n_enc_to_train = 1`
but then the encoder `toggle_layer_grad` call freezes encoder layer 0 and
raises `AttributeError`, so `__init__` aborts instead of completing with
the claimed layer counts. -/
theorem C2_int_selection_crashes :
    init_layer_selection ⟨[[true], [true]], [[true], [true], [true]], []⟩
      (NLayersSpec.int 4) =
      (⟨[[false], [true]], [[true], [true], [true]], []⟩, some PyErr.attributeError) := by
  decide

/-- Claim C3: an integer spec strictly larger than the total number of
attention layers fails the `assert` at line 58 before any
`toggle_layer_grad` call, so an `AssertionError` is raised and every
`requires_grad` flag is exactly as it was before the call. -/
theorem C3_overlarge_spec_fails_without_mutation (m : TModel) (n : Int)
    (h : ((m.encoderBlock.length : Int) + (m.decoderBlock.length : Int)) < n) :
    init_layer_selection m (NLayersSpec.int n) = (m, some PyErr.assertionError) := by
  have h0 : (0 : Int) < n := by omega
  have hn : ¬ n ≤ ((m.encoderBlock.length + m.decoderBlock.length : Nat) : Int) := by
    push_cast
    omega
  simp only [init_layer_selection, if_pos h0, if_neg hn]

/-- Claim C4: a zero or negative integer spec (the absent default being
`0`) takes the `else` branch of `__init__`, which iterates over every
model parameter and sets `requires_grad = False`: afterwards no parameter
of any encoder or decoder layer, and no other model parameter, is
trainable, and no exception is raised. -/
theorem C4_nonpositive_spec_freezes_everything (m : TModel) (n : Int) (h : n ≤ 0) :
    (init_layer_selection m (NLayersSpec.int n)).2 = none ∧
    (init_layer_selection m (NLayersSpec.int n)).1.allFrozen = true := by
  have h0 : ¬ (0 : Int) < n := by omega
  constructor
  · simp [init_layer_selection, h0]
  · simp [init_layer_selection, h0, TModel.allFrozen, List.all_map, Function.comp_def]

/-- Claim C4, witness: a model with one encoder layer, one decoder layer
of two parameters and one loose parameter, spec `0`. -/
theorem C4_witness :
    (init_layer_selection ⟨[[true]], [[false, true]], [true]⟩ (NLayersSpec.int 0)).2 = none ∧
    (init_layer_selection ⟨[[true]], [[false, true]], [true]⟩
        (NLayersSpec.int 0)).1.allFrozen = true :=
  C4_nonpositive_spec_freezes_everything ⟨[[true]], [[false, true]], [true]⟩ 0 (by decide)

/-- Claim C5 (code bug): the sentinel `-1` is indeed replaced by the full
layer count of the section (line 82), but the selector then raises
`AttributeError` from the unfreeze loop before setting any flag to `True`:
a layer whose parameter starts out frozen stays frozen instead of being
marked trainable. -/
theorem C5_sentinel_crashes :
    toggle_layer_grad ⟨[], [], []⟩ [[false]] (-1) =
      ([[false]], some PyErr.attributeError) := by
  decide

/-- Claim C6: a pair spec `(e, d)` with `e > E` or `d > D` fails one of the
two `assert` statements at lines 51-52 before either `toggle_layer_grad`
call, so an `AssertionError` is raised and no flag is toggled. -/
theorem C6_pair_bounds_validated (m : TModel) (e d : Int)
    (h : (m.encoderBlock.length : Int) < e ∨ (m.decoderBlock.length : Int) < d) :
    init_layer_selection m (NLayersSpec.tup e d) = (m, some PyErr.assertionError) := by
  rcases h with h | h
  · simp only [init_layer_selection, if_neg (not_le.mpr h)]
  · by_cases he : e ≤ (m.encoderBlock.length : Int)
    · simp only [init_layer_selection, if_pos he, if_neg (not_le.mpr h)]
    · simp only [init_layer_selection, if_neg he]

/-- Claim C6, witness: `E = 1`, `D = 0`, pair spec `(2, 0)`. -/
theorem C6_witness :
    init_layer_selection ⟨[[true]], [], []⟩ (NLayersSpec.tup 2 0) =
      (⟨[[true]], [], []⟩, some PyErr.assertionError) :=
  C6_pair_bounds_validated ⟨[[true]], [], []⟩ 2 0 (by decide)

/-- Claim C3, witness: `E = 1`, `D = 0`, integer spec `2 > 1`. -/
theorem C3_witness :
    init_layer_selection ⟨[[true]], [], []⟩ (NLayersSpec.int 2) =
      (⟨[[true]], [], []⟩, some PyErr.assertionError) :=
  C3_overlarge_spec_fails_without_mutation ⟨[[true]], [], []⟩ 2 (by decide)

/-- Claim C9: `toggle_layer_grad` leaves every flag unchanged and raises
nothing when `n_to_train` is `0` or a negative value other than `-1`; a
pair spec with such an encoder count passes the `assert` validation (the
count is `≤ E`), touches no encoder layer, and the whole call reduces to
the decoder toggle alone. -/
theorem C9_zero_and_negative_counts_are_noops :
    (∀ (m : TModel) (module : List (List Bool)) (n : Int),
        n = 0 ∨ (n < 0 ∧ n ≠ -1) →
        toggle_layer_grad m module n = (module, none)) ∧
    (∀ (m : TModel) (e d : Int),
        e = 0 ∨ (e < 0 ∧ e ≠ -1) →
        d ≤ (m.decoderBlock.length : Int) →
        init_layer_selection m (NLayersSpec.tup e d) =
          ({ m with decoderBlock := (toggle_layer_grad m m.decoderBlock d).1 },
           (toggle_layer_grad m m.decoderBlock d).2)) := by
  constructor
  · exact toggle_layer_grad_noop
  · intro m e d he hd
    have he_le : e ≤ (m.encoderBlock.length : Int) := by
      rcases he with h | h <;> omega
    rcases htog : toggle_layer_grad m m.decoderBlock d with ⟨dec', err⟩
    simp only [init_layer_selection, if_pos he_le, if_pos hd,
      toggle_layer_grad_noop m m.encoderBlock e he]
    simp only [htog]

/-- Claim C9, witness: `n_to_train = -2` is a silent no-op, and the pair
spec `(0, 0)` leaves a model with one encoder and one decoder layer fully
untouched. -/
theorem C9_witness :
    toggle_layer_grad ⟨[], [], []⟩ [[true]] (-2) = ([[true]], none) ∧
    init_layer_selection ⟨[[true]], [[true]], []⟩ (NLayersSpec.tup 0 0) =
      (⟨[[true]], [[true]], []⟩, none) := by
  have h2 := C9_zero_and_negative_counts_are_noops.2 ⟨[[true]], [[true]], []⟩ 0 0
    (Or.inl rfl) (by decide)
  exact ⟨C9_zero_and_negative_counts_are_noops.1 ⟨[], [], []⟩ [[true]] (-2)
    (Or.inr (by decide)), by rw [h2]; decide⟩

/-- `n_train = int(N * self.train_pct)` (line 126): `N` is `len(self.dataset)`
and `train_pct` the train fraction.  The Python float arithmetic is modelled
exactly over the rationals; for a nonnegative product `int()` truncation
agrees with `floor`. -/
def n_train (N : Nat) (train_pct : ℚ) : Nat := (⌊(N : ℚ) * train_pct⌋).toNat

/-- `n_val = N - n_train` (line 127). -/
def n_val (N : Nat) (train_pct : ℚ) : Nat := N - n_train N train_pct

/-- `torch.utils.data.random_split(self.dataset, (n_train, n_val))`
(line 130): the split draws a random permutation of the `len(dataset)`
indices and returns the subsets holding indices `perm[0 : n_train]` and
`perm[n_train : n_train + n_val]`; the drawn permutation is a parameter
here. -/
def random_split (perm : List Nat) (lengths : Nat × Nat) : List Nat × List Nat :=
  (perm.take lengths.1, (perm.drop lengths.1).take lengths.2)

/-- Claim C7: for a dataset of size `N` and a train fraction strictly
between 0 and 1, `n_train = floor(N * p)` and `n_val = N - n_train` sum to
`N`, and the two subsets produced by `random_split` are disjoint and
together a permutation of the full index range. -/
theorem C7_split_partitions (N : Nat) (p : ℚ) (perm : List Nat)
    (hp0 : 0 < p) (hp1 : p < 1) (hperm : perm.Perm (List.range N)) :
    n_train N p + n_val N p = N ∧
    List.Disjoint (random_split perm (n_train N p, n_val N p)).1
      (random_split perm (n_train N p, n_val N p)).2 ∧
    ((random_split perm (n_train N p, n_val N p)).1 ++
        (random_split perm (n_train N p, n_val N p)).2).Perm (List.range N) := by
  have hle : n_train N p ≤ N := by
    have h1 : (N : ℚ) * p ≤ (N : ℚ) :=
      mul_le_of_le_one_right (by positivity) hp1.le
    have h2 : ⌊(N : ℚ) * p⌋ ≤ (N : Int) := by
      calc ⌊(N : ℚ) * p⌋ ≤ ⌊(N : ℚ)⌋ := Int.floor_le_floor h1
        _ = (N : Int) := Int.floor_natCast N
    exact Int.toNat_le.mpr h2
  have hlen : perm.length = N := by rw [hperm.length_eq, List.length_range]
  have hsum : n_train N p + n_val N p = N := by
    unfold n_val
    omega
  have htake : (perm.drop (n_train N p)).take (n_val N p) = perm.drop (n_train N p) := by
    apply List.take_of_length_le
    rw [List.length_drop, hlen]
    unfold n_val
    omega
  have hnodup : perm.Nodup := hperm.nodup_iff.mpr (List.nodup_range N)
  refine ⟨hsum, ?_, ?_⟩
  · simp only [random_split, htake]
    exact List.disjoint_take_drop hnodup le_rfl
  · simp only [random_split, htake, List.take_append_drop]
    exact hperm

/-- Claim C7, witness: `N = 5`, `p = 4/5`, permutation `[2,0,1,4,3]`. -/
theorem C7_witness :
    n_train 5 (4/5) + n_val 5 (4/5) = 5 ∧
    List.Disjoint (random_split [2, 0, 1, 4, 3] (n_train 5 (4/5), n_val 5 (4/5))).1
      (random_split [2, 0, 1, 4, 3] (n_train 5 (4/5), n_val 5 (4/5))).2 ∧
    ((random_split [2, 0, 1, 4, 3] (n_train 5 (4/5), n_val 5 (4/5))).1 ++
        (random_split [2, 0, 1, 4, 3] (n_train 5 (4/5), n_val 5 (4/5))).2).Perm
      (List.range 5) :=
  C7_split_partitions 5 (4/5) [2, 0, 1, 4, 3] (by norm_num) (by norm_num) (by decide)

/-- A Python value appearing in the constructor arguments and training
configuration: ints, bools, strings, floats (modelled as rationals),
`np.inf`, `None`, dicts and pairs. -/
inductive PyVal where
  | int (n : Int) : PyVal
  | bool (b : Bool) : PyVal
  | str (s : String) : PyVal
  | rat (q : ℚ) : PyVal
  | inf : PyVal
  | pyNone : PyVal
  | dict (entries : List (String × PyVal)) : PyVal
  | tuple2 (fst snd : PyVal) : PyVal

/-- `v` is a Python `dict`. -/
def PyVal.isDict : PyVal → Bool
  | PyVal.dict _ => true
  | _ => false

/-- The fixed default `TrainingArguments` built at lines 101-116, as an
attribute map.  `output_dir` is the date-stamped directory name computed
from `model_name` (its exact value is irrelevant here, so it is a
parameter); `weight_decay = 0.01` is the rational `1/100`; keys absent
from the constructor call are not in the map. -/
def default_training_args (output_dir : String) : String → Option PyVal := fun k =>
  if k = "output_dir" then some (PyVal.str output_dir)
  else if k = "overwrite_output_dir" then some (PyVal.bool true)
  else if k = "num_train_epochs" then some (PyVal.int 1)
  else if k = "per_device_train_batch_size" then some (PyVal.int 32)
  else if k = "save_steps" then some (PyVal.int 100)
  else if k = "save_total_limit" then some (PyVal.int 2)
  else if k = "logging_steps" then some (PyVal.int 20)
  else if k = "dataloader_num_workers" then some (PyVal.int 15)
  else if k = "warmup_steps" then some (PyVal.int 50)
  else if k = "weight_decay" then some (PyVal.rat (1 / 100))
  else if k = "evaluation_strategy" then some (PyVal.str "steps")
  else if k = "eval_steps" then some (PyVal.int 100)
  else if k = "fp16" then some (PyVal.bool true)
  else if k = "gradient_accumulation_steps" then some (PyVal.int 5)
  else none

/-- One `setattr(default_training_args, k, v)` call (line 121): plain
attribute assignment, no schema check, so unknown keys are accepted. -/
def setattr_training_args (cfg : String → Option PyVal) (k : String) (v : PyVal) :
    String → Option PyVal :=
  fun q => if q = k then some v else cfg q

/-- The override loop of `get_trainer` (lines 117-121):
`for k, v in self.training_args.items(): setattr(default_training_args, k, v)`.
An absent (`None`) or empty override dict skips the loop, which coincides
with folding over the empty list. -/
def merge_training_args (cfg : String → Option PyVal)
    (overrides : List (String × PyVal)) : String → Option PyVal :=
  overrides.foldl (fun c kv => setattr_training_args c kv.1 kv.2) cfg

theorem merge_training_args_cons (cfg : String → Option PyVal)
    (kv : String × PyVal) (rest : List (String × PyVal)) :
    merge_training_args cfg (kv :: rest) =
      merge_training_args (setattr_training_args cfg kv.1 kv.2) rest := rfl

/-- A key that appears in no override is untouched by the merge. -/
theorem merge_training_args_of_not_mem (ovs : List (String × PyVal))
    (cfg : String → Option PyVal) (k : String)
    (h : k ∉ ovs.map Prod.fst) :
    merge_training_args cfg ovs k = cfg k := by
  induction ovs generalizing cfg with
  | nil => rfl
  | cons kv rest ih =>
    simp only [List.map_cons, List.mem_cons, not_or] at h
    rw [merge_training_args_cons, ih _ h.2]
    simp [setattr_training_args, h.1]

/-- A key that appears in an override (with pairwise distinct override
keys) ends up bound to the override's value. -/
theorem merge_training_args_of_mem (ovs : List (String × PyVal))
    (cfg : String → Option PyVal) (k : String) (v : PyVal)
    (hnd : (ovs.map Prod.fst).Nodup) (hmem : (k, v) ∈ ovs) :
    merge_training_args cfg ovs k = some v := by
  induction ovs generalizing cfg with
  | nil => cases hmem
  | cons kv rest ih =>
    obtain ⟨k0, v0⟩ := kv
    simp only [List.map_cons, List.nodup_cons] at hnd
    rcases List.mem_cons.mp hmem with heq | hmem'
    · obtain ⟨rfl, rfl⟩ := Prod.mk.injEq k v k0 v0 ▸ heq
      rw [merge_training_args_cons,
        merge_training_args_of_not_mem _ _ _ hnd.1]
      simp [setattr_training_args]
    · rw [merge_training_args_cons, ih _ hnd.2 hmem']

/-- Claim C8: merging a user override dict into the fixed defaults by
repeated `setattr` yields exactly the defaults with each overridden key
replaced by the user's value; a key outside the default schema is applied
all the same (the merged map binds it to the override's value), with no
validation and no error. -/
theorem C8_training_args_merge (dir : String) (ovs : List (String × PyVal))
    (k : String) (hnd : (ovs.map Prod.fst).Nodup) :
    (∀ v : PyVal, (k, v) ∈ ovs →
        merge_training_args (default_training_args dir) ovs k = some v) ∧
    (k ∉ ovs.map Prod.fst →
        merge_training_args (default_training_args dir) ovs k =
          default_training_args dir k) :=
  ⟨fun v hv => merge_training_args_of_mem ovs (default_training_args dir) k v hnd hv,
   fun hk => merge_training_args_of_not_mem ovs (default_training_args dir) k hk⟩

/-- Claim C8, witness: overriding `num_train_epochs` and the
out-of-schema key `sharded_ddp`, then reading back `sharded_ddp`. -/
theorem C8_witness :
    merge_training_args (default_training_args "t5-base-12-10-2026")
      [("num_train_epochs", PyVal.int 3), ("sharded_ddp", PyVal.bool true)]
      "sharded_ddp" = some (PyVal.bool true) :=
  (C8_training_args_merge "t5-base-12-10-2026"
      [("num_train_epochs", PyVal.int 3), ("sharded_ddp", PyVal.bool true)]
      "sharded_ddp" (by decide)).1 (PyVal.bool true)
    (List.mem_cons_of_mem _ (List.mem_cons_self _ _))

/-- The parameters of `AbstractTransformerAutoencoder.__init__`
(lines 22-23), in signature order. -/
structure BaseInitArgs where
  dataset : PyVal
  model_name : PyVal
  model_config_dict : PyVal
  training_args_dict : PyVal
  block_size : PyVal
  train_pct : PyVal
  n_layers_to_train : PyVal

/-- The `super().__init__(data_dir, model_name, block_size,
training_args_dict, ds_limit, train_pct=train_pct,
n_layers_to_train=n_layers_to_train)` call of `T5Autoencoder.__init__`
(lines 165-166): the five positional arguments bind, in order, to
`dataset`, `model_name`, `model_config_dict`, `training_args_dict` and
`block_size` of the base signature. -/
def T5Autoencoder_super_args (data_dir model_name block_size training_args_dict
    ds_limit train_pct n_layers_to_train : PyVal) : BaseInitArgs where
  dataset := data_dir
  model_name := model_name
  model_config_dict := block_size
  training_args_dict := training_args_dict
  block_size := ds_limit
  train_pct := train_pct
  n_layers_to_train := n_layers_to_train

/-- Claim C10: whatever the arguments of `T5Autoencoder.__init__`, its
integer `block_size` argument arrives in the base constructor's
`model_config_dict` parameter and `ds_limit` arrives in the base's
`block_size` parameter; in particular the value the base expands with
`**` is an integer, never a user-supplied config dict. -/
theorem C10_super_args_mismatched (data_dir model_name : PyVal) (block_size : Int)
    (training_args_dict ds_limit train_pct n_layers_to_train : PyVal) :
    (T5Autoencoder_super_args data_dir model_name (PyVal.int block_size)
        training_args_dict ds_limit train_pct n_layers_to_train).model_config_dict =
      PyVal.int block_size ∧
    (T5Autoencoder_super_args data_dir model_name (PyVal.int block_size)
        training_args_dict ds_limit train_pct n_layers_to_train).block_size = ds_limit ∧
    (T5Autoencoder_super_args data_dir model_name (PyVal.int block_size)
        training_args_dict ds_limit train_pct
        n_layers_to_train).model_config_dict.isDict = false :=
  ⟨rfl, rfl, rfl⟩
